import Mathlib

/-!
Shallow embedding of the CONDUSEF SOFIPO data monitor
(source file: check_condusef.py).

The script is a single sequential program: it loads a persisted
(year, month) cursor, scans forward month by month fetching a public
web page per month, extracts per-entity credit-portfolio records from
the HTML table, stops at the first month with no data, then (when
anything new was found) sends an email alert and persists the advanced
cursor.

Modelling conventions:
  - Python str values are Lean String (operations are carried out on
    the underlying List Char where that keeps kernel evaluation easy);
  - Python int is Lean Int, Python float is abstracted to Rat
    (the IEEE-754 rounding of float literals and of float formatting is
    abstracted to exact rational arithmetic; no claim depends on it);
  - the HTTP transport, SMTP transport and the on-disk state file are
    external collaborators: they enter as explicit inputs (an optional
    page, a boolean send oracle, the loaded cursor) and as an output
    trace of file operations;
  - the stdlib HTMLParser tokenizer is external library code: a fetched
    page carries both its raw text (used for the marker check) and the
    event stream the tokenizer would deliver for it (used by the
    translated handle_starttag / handle_endtag / handle_data methods);
  - the scan loop is modelled with explicit fuel; the fuel passed by
    the main entry point is exactly the number of candidate months
    between the first candidate and the current calendar month, which
    matches the Python while-loop for calendar months in 1..12.
-/

namespace CondusefCheck

/-! ### Python string helpers -/

/-- Whether the second list starts with the first (needle, haystack). -/
def beginsWith : List Char → List Char → Bool
  | [], _ => true
  | _ :: _, [] => false
  | a :: as, b :: bs => a == b && beginsWith as bs

/-- Occurrence of needle anywhere in haystack, as in the Python in
operator on str. -/
def hasSub (needle : List Char) : List Char → Bool
  | [] => needle.isEmpty
  | c :: t => beginsWith needle (c :: t) || hasSub needle t

/-- Python substring containment test on String. -/
def pyIn (needle hay : String) : Bool := hasSub needle.data hay.data

/-- The whitespace recognised by Python str.strip with no argument
(ASCII part; exotic unicode spaces are not modelled). -/
def isPySpace (c : Char) : Bool :=
  c == ' ' || c == '\t' || c == '\n' || c == '\r' || c == '\x0b' || c == '\x0c'

/-- Python str.strip with no argument, on character lists. -/
def stripList (cs : List Char) : List Char :=
  ((cs.dropWhile isPySpace).reverse.dropWhile isPySpace).reverse

/-- Python str.strip with no argument. -/
def py_strip (s : String) : String := ⟨stripList s.data⟩

/-! ### Numeric cell parsers

parse_number does int(s.replace(",", "").strip()) with 0 on failure;
parse_pct does float(s.replace("%", "").strip()) with 0.0 on failure.
The grammar of Python int()/float() on strings is modelled: optional
sign, decimal digits with single underscores allowed between digits,
and for float an optional fractional part and exponent. (The float
specials inf/nan are not modelled; they cannot occur in the data and no
claim depends on them.) -/

/-- Digits with single underscores allowed between digits; continuation
after at least one digit has been read. -/
def digitsUSAux : List Char → Bool
  | [] => true
  | c :: rest =>
    if c == '_' then
      match rest with
      | [] => false
      | d :: r => d.isDigit && digitsUSAux r
    else c.isDigit && digitsUSAux rest

/-- Nonempty digit run with single underscores allowed between digits:
the digit-part grammar of Python int() and float(). -/
def digitsUS : List Char → Bool
  | [] => false
  | c :: rest => c.isDigit && digitsUSAux rest

/-- Value of a digit run once underscores are dropped. -/
def digitsVal (cs : List Char) : Nat :=
  (cs.filter (fun c => c != '_')).foldl (fun n c => n * 10 + (c.toNat - 48)) 0

/-- The grammar of Python int() on an already-stripped string. -/
def int_from_str : List Char → Option Int
  | '+' :: r => if digitsUS r then some (digitsVal r) else none
  | '-' :: r => if digitsUS r then some (-(digitsVal r : Int)) else none
  | r => if digitsUS r then some (digitsVal r) else none

/-- parse_number: int of the comma-stripped, whitespace-stripped cell,
0 on any parse failure (the try/except ValueError/AttributeError). -/
def parse_number (s : String) : Int :=
  match int_from_str (stripList (s.data.filter (fun c => c != ','))) with
  | some n => n
  | none => 0

/-- Mantissa of the Python float() grammar: digits, digits.digits,
digits. or .digits (with underscore runs as for int). -/
def float_mantissa : List Char → Option Rat :=
  fun cs =>
    let ip := cs.takeWhile (fun c => c != '.')
    let rest := cs.dropWhile (fun c => c != '.')
    match rest with
    | [] => if digitsUS ip then some ((digitsVal ip : Int) : Rat) else none
    | _ :: fp =>
      if fp.any (fun c => c == '.') then none
      else if (ip.isEmpty || digitsUS ip) && (fp.isEmpty || digitsUS fp)
              && !(ip.isEmpty && fp.isEmpty) then
        let fd := fp.filter (fun c => c != '_')
        some ((digitsVal ip : Rat) + (digitsVal fd : Rat) / (10 : Rat) ^ fd.length)
      else none

/-- The grammar of Python float() on an already-stripped string. -/
def float_from_str (cs : List Char) : Option Rat :=
  let sb : Int × List Char :=
    match cs with
    | '+' :: r => (1, r)
    | '-' :: r => (-1, r)
    | r => (1, r)
  let mant := sb.2.takeWhile (fun c => c != 'e' && c != 'E')
  let rest := sb.2.dropWhile (fun c => c != 'e' && c != 'E')
  match rest with
  | [] => (float_mantissa mant).map (fun q => (sb.1 : Rat) * q)
  | _ :: ex =>
    let eb : Int × List Char :=
      match ex with
      | '+' :: r => (1, r)
      | '-' :: r => (-1, r)
      | r => (1, r)
    if digitsUS eb.2 then
      (float_mantissa mant).map
        (fun q => (sb.1 : Rat) * q * (10 : Rat) ^ (eb.1 * (digitsVal eb.2 : Int)))
    else none

/-- parse_pct: float of the percent-sign-stripped, whitespace-stripped
cell, 0.0 on any parse failure. -/
def parse_pct (s : String) : Rat :=
  match float_from_str (stripList (s.data.filter (fun c => c != '%'))) with
  | some q => q
  | none => 0

/-! ### Configuration tables -/

def CONDUSEF_URL : String :=
  "https://registros.condusef.gob.mx/reco/cartera_credito_institucion.php"

def STATE_FILE : String := "scripts/last_known_date.json"

/-- The ENTITIES dict: full-name pattern to short identifier, in
configuration (= Python dict insertion) order. -/
def ENTITIES : List (String × String) :=
  [("Klar Technologies", "Klar"),
   ("Libertad Servicios Financieros", "Libertad"),
   ("Stori México", "Stori"),
   ("Financiera Sustentable", "Sustentable"),
   ("NU México Financiera", "NU México")]

def RECIPIENTS : List String :=
  ["mateus.raffaelli@itaubba.com",
   "pedro.leduc@itaubba.com",
   "mateusrsx@gmail.com"]

/-- MONTH_NAMES lookup. Python indexes the dict directly and would
raise KeyError outside 1..12; the label is only used for display and
only reached with months produced by next_month from a 1..12 month, so
the out-of-range value is immaterial and modelled as the empty name. -/
def month_name (m : Nat) : String :=
  match m with
  | 1 => "January" | 2 => "February" | 3 => "March" | 4 => "April"
  | 5 => "May" | 6 => "June" | 7 => "July" | 8 => "August"
  | 9 => "September" | 10 => "October" | 11 => "November" | 12 => "December"
  | _ => ""

/-! ### The HTML table parser (class CONDUSEFParser) -/

/-- One event delivered by the stdlib HTML tokenizer to the handler
methods. Attributes of start tags are ignored by the source handlers
and therefore omitted. -/
inductive HtmlEvent where
  | startTag (tag : String)
  | endTag (tag : String)
  | dataEv (text : String)
deriving DecidableEq

/-- The mutable state of CONDUSEFParser. current_cell is only ever read
after a td start tag assigned it; it is initialised to the empty string
here (the Python class leaves it unset until the first td). -/
structure PState where
  in_td : Bool
  current_cell : String
  current_row : List String
  rows : List (List String)
deriving DecidableEq

def initPState : PState :=
  { in_td := false, current_cell := "", current_row := [], rows := [] }

/-- One handler dispatch: handle_starttag, handle_endtag, handle_data,
translated clause by clause. -/
def parse_step (st : PState) (e : HtmlEvent) : PState :=
  match e with
  | .startTag t =>
    let st1 := if t == "td" then { st with in_td := true, current_cell := "" } else st
    if t == "tr" then { st1 with current_row := [] } else st1
  | .endTag t =>
    let st1 :=
      if t == "td" then
        { st with in_td := false,
                  current_row := st.current_row ++ [py_strip st.current_cell] }
      else st
    if t == "tr" && decide (5 ≤ st1.current_row.length) then
      { st1 with rows := st1.rows ++ [st1.current_row.take 5] }
    else st1
  | .dataEv d =>
    if st.in_td then { st with current_cell := st.current_cell ++ d } else st

/-- parser.feed: fold the handler over the event stream. -/
def parser_feed (events : List HtmlEvent) : PState :=
  events.foldl parse_step initPState

/-! ### Record extraction (the loop over parser.rows in fetch_month) -/

/-- One extracted entity record. -/
structure EntityRecord where
  cartera_total : Int
  cartera_vigente : Int
  cartera_vencida : Int
  imora : Rat
deriving DecidableEq

/-- The results dict: insertion-ordered association list with unique
keys, Python dict assignment semantics. -/
abbrev Results := List (String × EntityRecord)

/-- Python dict assignment d[k] = v: replace in place when the key is
present, append otherwise. -/
def dictInsert (d : Results) (k : String) (v : EntityRecord) : Results :=
  if d.any (fun p => p.1 == k) then
    d.map (fun p => if p.1 == k then (k, v) else p)
  else d ++ [(k, v)]

/-- Python dict lookup (keys are unique by construction). -/
def lookupD : Results → String → Option EntityRecord
  | [], _ => none
  | p :: r, k => if p.1 == k then some p.2 else lookupD r k

/-- The record built from one row (rows delivered by the parser always
have exactly five cells). -/
def entity_record (row : List String) : EntityRecord :=
  { cartera_total := parse_number (row.getD 1 ""),
    cartera_vigente := parse_number (row.getD 2 ""),
    cartera_vencida := parse_number (row.getD 3 ""),
    imora := parse_pct (row.getD 4 "") }

/-- The inner loop of fetch_month over ENTITIES for one row: every
pattern contained in the name cell inserts the row record under its
short identifier. -/
def process_row (acc : Results) (row : List String) : Results :=
  ENTITIES.foldl
    (fun acc e =>
      if pyIn e.1 (row.getD 0 "") then dictInsert acc e.2 (entity_record row)
      else acc)
    acc

/-- The outer loop of fetch_month over parser.rows. -/
def extract_results (rows : List (List String)) : Results :=
  rows.foldl process_row []

/-- Whether some configured pattern with the given short identifier is
contained in the name cell of the row. -/
def rowMatches (row : List String) (s : String) : Bool :=
  ENTITIES.any (fun e => pyIn e.1 (row.getD 0 "") && e.2 == s)

/-! ### fetch_month -/

def MARKER : String := "CARTERA TOTAL"

/-- A successfully transported response page: its raw text and the
event stream the stdlib tokenizer delivers for that text. -/
structure Page where
  text : String
  events : List HtmlEvent

/-- fetch_month. The transport is external: the input is none when the
requests call raised (timeout, connection error, or raise_for_status on
a non-success status) and some page otherwise. Returns the extracted
results, or none for every no-data condition. -/
def fetch_month (resp : Option Page) : Option Results :=
  match resp with
  | none => none
  | some page =>
    if pyIn MARKER page.text then
      let results := extract_results (parser_feed page.events).rows
      if results.isEmpty then none else some results
    else none

/-! ### State management (load_state / save_state) -/

/-- The text json.dump writes for the state record with indent=2. -/
def state_json (y m : Nat) : String :=
  "\x7b\n  \"last_year\": " ++ toString y ++ ",\n  \"last_month\": " ++ toString m ++ "\n\x7d"

/-- One file-system operation performed by the persistence code. -/
inductive FsOp where
  | openTrunc (path : String)
  | writeStr (s : String)
  | closeF
  | renameTo (src dst : String)
deriving DecidableEq

/-- save_state: open the state file for writing (truncating it in
place), dump the json record, close. -/
def save_state_ops (y m : Nat) : List FsOp :=
  [FsOp.openTrunc STATE_FILE, FsOp.writeStr (state_json y m), FsOp.closeF]

/-- load_state: the stored record when the file exists, else the
default. The file content is an external input. -/
def load_state (stored : Option (Nat × Nat)) : Nat × Nat :=
  stored.getD (2025, 12)

/-! ### Email sending -/

/-- The two notification credentials read from the environment
(os.environ.get returns none when the variable is unset). -/
structure Env where
  gmail_user : Option String
  gmail_app_password : Option String

/-- Python truthiness of an optional string: None and the empty string
are both falsy. -/
def py_truthy_str : Option String → Bool
  | none => false
  | some s => !s.isEmpty

/-- Outcome of send_email: the returned boolean and the lines it
printed to standard output. -/
structure EmailResult where
  ok : Bool
  printed : List String

/-- send_email. The SMTP transport is external: smtp_ok says whether
the login-and-send block succeeds. Note that the credentials-missing
branch prints two fixed diagnostic lines and returns False; it does not
print html_body. -/
def send_email (env : Env) (smtp_ok : Bool) (subject html_body : String) : EmailResult :=
  if !py_truthy_str env.gmail_user || !py_truthy_str env.gmail_app_password then
    { ok := false,
      printed := ["ERROR: GMAIL_USER or GMAIL_APP_PASSWORD not set.",
                  "Skipping email — printing data to console instead."] }
  else if smtp_ok then
    { ok := true,
      printed := ["✅ Email sent to " ++ toString RECIPIENTS.length ++ " recipients."] }
  else
    { ok := false,
      printed := ["❌ Failed to send email: <exception>"] }

/-! ### Report formatting (format_number / build_email_html) -/

/-- Insert a thousands separator every three digits; the input is the
reversed digit list, the counter the number of digits already emitted
in the current group. -/
def commaRev : List Char → Nat → List Char
  | [], _ => []
  | c :: t, n => if n == 3 then ',' :: c :: commaRev t 1 else c :: commaRev t (n + 1)

/-- Decimal rendering of a natural number with thousands separators. -/
def withCommas (n : Nat) : String :=
  ⟨(commaRev (toString n).data.reverse 0).reverse⟩

/-- Rendering of an integer with thousands separators, as Python
format with the comma flag and no decimals. -/
def fmtGrouped0 (n : Int) : String :=
  (if n < 0 then "-" else "") ++ withCommas n.natAbs

/-- Round to the nearest integer, ties to even: the rounding of Python
float formatting (its binary-float rounding abstracted to exact
rational rounding). -/
def roundHalfEven (q : Rat) : Int :=
  let f := q.floor
  let r := q - (f : Rat)
  if r < 1 / 2 then f
  else if (1 : Rat) / 2 < r then f + 1
  else if f % 2 = 0 then f else f + 1

/-- Python format with comma flag and one decimal. -/
def fmt1Grouped (q : Rat) : String :=
  let t := roundHalfEven (q * 10)
  (if t < 0 then "-" else "") ++ withCommas (t.natAbs / 10) ++ "." ++ toString (t.natAbs % 10)

/-- Python format with one decimal and no grouping. -/
def fmt1Plain (q : Rat) : String :=
  let t := roundHalfEven (q * 10)
  (if t < 0 then "-" else "") ++ toString (t.natAbs / 10) ++ "." ++ toString (t.natAbs % 10)

/-- format_number: magnitude-scaled MXN rendering. The Python float
thresholds 1e9 / 1e6 / 1e3 are exact on these integers. -/
def format_number (n : Int) : String :=
  if 1000000000 ≤ n then "$" ++ fmt1Grouped ((n : Rat) / 1000000000) ++ "B"
  else if 1000000 ≤ n then "$" ++ fmt1Grouped ((n : Rat) / 1000000) ++ "M"
  else if 1000 ≤ n then "$" ++ fmt1Grouped ((n : Rat) / 1000) ++ "K"
  else "$" ++ fmtGrouped0 n

/-- Insertion into a key-sorted association list. -/
def insertSorted (p : String × EntityRecord) :
    List (String × EntityRecord) → List (String × EntityRecord)
  | [] => [p]
  | q :: r => if p.1 ≤ q.1 then p :: q :: r else q :: insertSorted p r

/-- Python sorted(data.items()): items in lexicographic key order (keys
are unique, so the value components never get compared). -/
def sorted_items (d : Results) : Results := d.foldr insertSorted []

/-- The three-tier colour banding of the delinquency percentage. -/
def imora_color (q : Rat) : String :=
  if q < 10 then "#059669" else if q < 20 then "#d97706" else "#dc2626"

/-- The period header block appended to rows_html for each period. -/
def period_header_html (period : String) : String :=
  "\n        <tr style=\"background:#FFF7ED;\">\n            <td colspan=\"5\" style=\"padding:12px 16px; font-weight:700; font-size:15px; color:#EC7000; border-bottom:2px solid #EC7000;\">\n                📅 "
  ++ period ++ "\n            </td>\n        </tr>"

/-- The entity row block appended to rows_html for each entity. -/
def entity_row_html (entity : String) (vals : EntityRecord) : String :=
  "\n        <tr>\n            <td style=\"padding:10px 16px; border-bottom:1px solid #f3f4f6; font-weight:600;\">"
  ++ entity
  ++ "</td>\n            <td style=\"padding:10px 16px; border-bottom:1px solid #f3f4f6; text-align:right; font-variant-numeric:tabular-nums;\">"
  ++ format_number vals.cartera_total
  ++ "</td>\n            <td style=\"padding:10px 16px; border-bottom:1px solid #f3f4f6; text-align:right; font-variant-numeric:tabular-nums;\">"
  ++ format_number vals.cartera_vigente
  ++ "</td>\n            <td style=\"padding:10px 16px; border-bottom:1px solid #f3f4f6; text-align:right; font-variant-numeric:tabular-nums;\">"
  ++ format_number vals.cartera_vencida
  ++ "</td>\n            <td style=\"padding:10px 16px; border-bottom:1px solid #f3f4f6; text-align:right; font-weight:700; color:"
  ++ imora_color vals.imora ++ ";\">" ++ fmt1Plain vals.imora
  ++ "%</td>\n        </tr>"

/-- The period label used as new_periods key and in the report. -/
def period_label (p : Nat × Nat) : String :=
  month_name p.2 ++ " " ++ toString p.1

/-- The part of the report template before the spliced rows_html. -/
def html_template_head : String :=
  "\n    <div style=\"font-family:\x27Segoe UI\x27,Arial,sans-serif; max-width:700px; margin:0 auto; background:#fff;\">\n        <div style=\"background:#1a1a2e; padding:24px 30px; border-radius:12px 12px 0 0;\">\n            <table><tr>\n                <td><h1 style=\"color:#fff; font-size:20px; margin:0;\">🔔 CONDUSEF SOFIPO Data Update</h1>\n                <p style=\"color:#9ca3af; font-size:13px; margin:4px 0 0;\">New credit portfolio data available</p></td>\n                <td style=\"text-align:right; padding-left:20px;\">\n                    <div style=\"background:#EC7000; color:#fff; padding:8px 14px; border-radius:8px; font-weight:700; font-size:14px;\">\n                        Itaú BBA<br><span style=\"font-weight:400; font-size:11px;\">Equity Research</span>\n                    </div>\n                </td>\n            </tr></table>\n        </div>\n\n        <div style=\"padding:24px 30px;\">\n            <p style=\"color:#374151; font-size:14px; margin-bottom:20px;\">\n                New monthly data has been published on CONDUSEF for the tracked SOFIPOs.\n                The dashboard has been updated automatically.\n            </p>\n\n            <table style=\"width:100%; border-collapse:collapse; font-size:13px; border:1px solid #e5e7eb; border-radius:8px;\">\n                <thead>\n                    <tr style=\"background:#1a1a2e;\">\n                        <th style=\"padding:12px 16px; color:#fff; text-align:left; font-size:12px;\">Entity</th>\n                        <th style=\"padding:12px 16px; color:#fff; text-align:right; font-size:12px;\">Total Loans</th>\n                        <th style=\"padding:12px 16px; color:#fff; text-align:right; font-size:12px;\">Performing</th>\n                        <th style=\"padding:12px 16px; color:#fff; text-align:right; font-size:12px;\">Non-Performing</th>\n                        <th style=\"padding:12px 16px; color:#fff; text-align:right; font-size:12px;\">IMORA</th>\n                    </tr>\n                </thead>\n                <tbody>\n                    "

/-- The part of the report template after the spliced rows_html. -/
def html_template_tail : String :=
  "\n                </tbody>\n            </table>\n\n            <p style=\"color:#6b7280; font-size:12px; margin-top:24px; padding-top:16px; border-top:1px solid #e5e7eb;\">\n                Source: <a href=\"https://registros.condusef.gob.mx\" style=\"color:#EC7000;\">registros.condusef.gob.mx</a> — Section 27 (SOFIPOs)<br>\n                This is an automated alert from the CONDUSEF SOFIPO Credit Dashboard.\n            </p>\n        </div>\n    </div>"

/-- build_email_html: the rows_html accumulation loop spliced into the
outer template. -/
def build_email_html (new_periods : List ((Nat × Nat) × Results)) : String :=
  let rows_html := new_periods.foldl
    (fun acc pd =>
      (sorted_items pd.2).foldl
        (fun a e => a ++ entity_row_html e.1 e.2)
        (acc ++ period_header_html (period_label pd.1)))
    ""
  html_template_head ++ rows_html ++ html_template_tail

/-! ### The main scan (function main) -/

/-- next_month: successor period, wrapping the month at 12. -/
def next_month (y m : Nat) : Nat × Nat :=
  if m == 12 then (y + 1, 1) else (y, m + 1)

/-- The Python tuple comparison (check_y, check_m) <= (current_y,
current_m): lexicographic order on pairs. -/
def periodLeB (p q : Nat × Nat) : Bool :=
  decide (p.1 < q.1 ∨ (p.1 = q.1 ∧ p.2 ≤ q.2))

/-- Linear month index; for months in 1..12 it is monotone in the
lexicographic period order and next_month adds exactly one. -/
def monthIdx (p : Nat × Nat) : Nat := 12 * p.1 + p.2

/-- The in-flight state of the while loop in main. -/
structure ScanState where
  check : Nat × Nat
  last : Nat × Nat
  acc : List ((Nat × Nat) × Results)
  fetched : List (Nat × Nat)
deriving DecidableEq

/-- The while loop of main, with explicit fuel. Each iteration tests
the tuple comparison, fetches the candidate month (recorded in
fetched), and either accumulates the period and advances (Python dict
insertion into new_periods keyed by the period label, which is
injective on the periods visited) or stops at the first falsy result
(None or an empty dict). -/
def scanLoop (fetch : Nat → Nat → Option Results) (current : Nat × Nat) :
    Nat → ScanState → ScanState
  | 0, s => s
  | fuel + 1, s =>
    if periodLeB s.check current then
      match fetch s.check.1 s.check.2 with
      | some d =>
        if d.isEmpty then { s with fetched := s.fetched ++ [s.check] }
        else
          scanLoop fetch current fuel
            { check := next_month s.check.1 s.check.2, last := s.check,
              acc := s.acc ++ [(s.check, d)], fetched := s.fetched ++ [s.check] }
      | none => { s with fetched := s.fetched ++ [s.check] }
    else s

/-- One event of the observable run trace. -/
inductive Ev where
  | fetchEv (p : Nat × Nat)
  | emailEv
  | saveEv (p : Nat × Nat)
deriving DecidableEq

/-- Observable outcome of one run of main. -/
structure RunResult where
  outcome : List ((Nat × Nat) × Results)
  finalCursor : Nat × Nat
  saved : Option (Nat × Nat)
  emailAttempted : Bool
  emailOk : Bool
  emailPrinted : List String
  exitCode : Nat
  fetched : List (Nat × Nat)
  trace : List Ev

/-- Fuel sufficient for the while loop: one per candidate month from
start up to and including the current month. -/
def fuelFor (current start : Nat × Nat) : Nat :=
  monthIdx current + 1 - monthIdx start

/-- The subject line built in main. -/
def subject_line (outcome : List ((Nat × Nat) × Results)) : String :=
  "🔔 CONDUSEF SOFIPO Update — "
  ++ String.intercalate ", " (outcome.map (fun pd => period_label pd.1))

/-- The state of the while loop of main at exit, starting from the
loaded cursor. -/
def scanFinal (fetch : Nat → Nat → Option Results) (current : Nat × Nat)
    (stored : Option (Nat × Nat)) : ScanState :=
  let state := load_state stored
  scanLoop fetch current (fuelFor current (next_month state.1 state.2))
    { check := next_month state.1 state.2, last := state, acc := [], fetched := [] }

/-- main: load the cursor, scan forward from its successor, and if
anything was found build the report, attempt the email, and persist the
advanced cursor (in that order); the return value (passed to sys.exit)
is 1 when new periods were found and 0 otherwise. -/
def runMain (fetch : Nat → Nat → Option Results) (current : Nat × Nat)
    (stored : Option (Nat × Nat)) (env : Env) (smtp_ok : Bool) : RunResult :=
  let final := scanFinal fetch current stored
  if final.acc.isEmpty then
    { outcome := [], finalCursor := final.last, saved := none,
      emailAttempted := false, emailOk := false, emailPrinted := [],
      exitCode := 0, fetched := final.fetched,
      trace := final.fetched.map Ev.fetchEv }
  else
    let subject := subject_line final.acc
    let html := build_email_html final.acc
    let er := send_email env smtp_ok subject html
    { outcome := final.acc, finalCursor := final.last, saved := some final.last,
      emailAttempted := true, emailOk := er.ok, emailPrinted := er.printed,
      exitCode := 1, fetched := final.fetched,
      trace := final.fetched.map Ev.fetchEv ++ [Ev.emailEv, Ev.saveEv final.last] }

/-! ### Scenario builders and spec-side predicates -/

/-- The event stream the tokenizer delivers for one td cell holding the
given text. -/
def cell_events (c : String) : List HtmlEvent :=
  [HtmlEvent.startTag "td", HtmlEvent.dataEv c, HtmlEvent.endTag "td"]

/-- The event stream for one table row with the given cell texts. -/
def tr_events (cells : List String) : List HtmlEvent :=
  HtmlEvent.startTag "tr" :: (cells.flatMap cell_events ++ [HtmlEvent.endTag "tr"])

/-- Whether a trace event is the cursor persistence. -/
def isSaveEv : Ev → Bool
  | Ev.saveEv _ => true
  | _ => false

/-- Spec-side predicate (write-new-then-rename): the persistence trace
writes a fresh temporary file and renames it onto the destination, so
that the destination is replaced atomically. -/
def atomic_replace_spec (dst : String) (t : List FsOp) : Prop :=
  ∃ tmp content, tmp ≠ dst ∧
    t = [FsOp.openTrunc tmp, FsOp.writeStr content, FsOp.closeF,
         FsOp.renameTo tmp dst]

/-- Content of the state file after one file operation (save_state only
ever has the state file open, so writes go to it). -/
def apply_fs (c : String) (op : FsOp) : String :=
  match op with
  | FsOp.openTrunc p => if p == STATE_FILE then "" else c
  | FsOp.writeStr s => c ++ s
  | FsOp.closeF => c
  | FsOp.renameTo _ _ => c

/-- Content of the state file after a (possibly interrupted) prefix of
a persistence trace. -/
def state_file_after (c : String) (ops : List FsOp) : String :=
  ops.foldl apply_fs c

/-! ### Concrete scenario inputs used by witnesses and exhibits -/

/-- A minimal nonempty entity record. -/
def demo_rec : EntityRecord :=
  { cartera_total := 1, cartera_vigente := 1, cartera_vencida := 0, imora := 0 }

/-- A minimal nonempty extraction result. -/
def demo_res : Results := [("Klar", demo_rec)]

/-- A fetch stub with data only for 2026-01. -/
def c8_fetch : Nat → Nat → Option Results := fun y m =>
  if y == 2026 && m == 1 then some demo_res else none

/-- An environment with the account credential absent. -/
def c8_env : Env := { gmail_user := none, gmail_app_password := some "pw" }

/-- A fetch stub with data for 2026-02 and 2026-03 and nothing else. -/
def c1_fetch : Nat → Nat → Option Results := fun y m =>
  if y == 2026 && (m == 2 || m == 3) then some demo_res else none

/-- A transported page without the marker substring. -/
def demo_page : Page := { text := "\x3chtml\x3eno data\x3c/html\x3e", events := [] }

/-- A transported page with the marker but no table rows. -/
def demo_page_marker : Page := { text := "CARTERA TOTAL", events := [] }

/-- Two document rows matching the same entity pattern. -/
def rowA : List String := ["Stori México", "1", "1", "1", "1"]

def rowB : List String := ["Stori México SAPI", "2", "2", "2", "2"]

/-! ### Order and successor lemmas -/

theorem periodLeB_refl (p : Nat × Nat) : periodLeB p p = true := by
  simp [periodLeB]

theorem periodLeB_trans {p q r : Nat × Nat} (h1 : periodLeB p q = true)
    (h2 : periodLeB q r = true) : periodLeB p r = true := by
  simp only [periodLeB, decide_eq_true_eq] at *
  omega

theorem periodLeB_le_next (p : Nat × Nat) :
    periodLeB p (next_month p.1 p.2) = true := by
  obtain ⟨y, m⟩ := p
  unfold next_month
  split <;> simp_all [periodLeB]

theorem periodLeB_next_self (y m : Nat) :
    periodLeB (next_month y m) (y, m) = false := by
  unfold next_month
  split <;> simp_all [periodLeB]

theorem monthIdx_next (y m : Nat) :
    monthIdx (next_month y m) = monthIdx (y, m) + 1 := by
  unfold next_month monthIdx
  split <;> simp_all <;> omega

theorem empty_append_str (s : String) : "" ++ s = s := rfl

/-! ### Dict lemmas (Python dict assignment and lookup) -/

theorem lookupD_append (d e : Results) (k : String) :
    lookupD (d ++ e) k =
      match lookupD d k with
      | some v => some v
      | none => lookupD e k := by
  induction d with
  | nil => simp [lookupD]
  | cons p t ih =>
    by_cases hp : p.1 = k
    · simp [lookupD, hp]
    · simp [lookupD, hp, ih]

theorem lookupD_eq_none (d : Results) (k : String)
    (h : d.any (fun p => p.1 == k) = false) : lookupD d k = none := by
  induction d with
  | nil => rfl
  | cons p t ih =>
    simp only [List.any_cons, Bool.or_eq_false_iff] at h
    simp [lookupD, h.1, ih h.2]

theorem bool_eq_false {b : Bool} (h : ¬ b = true) : b = false := by
  cases b
  · rfl
  · exact absurd rfl h

theorem lookupD_cons (p : String × EntityRecord) (t : Results) (k : String) :
    lookupD (p :: t) k = if p.1 == k then some p.2 else lookupD t k := rfl

theorem lookupD_map_replace (d : Results) (k : String) (v : EntityRecord)
    (k' : String) :
    lookupD (d.map (fun p => if p.1 == k then (k, v) else p)) k' =
      if k' = k then (if d.any (fun p => p.1 == k) then some v else none)
      else lookupD d k' := by
  induction d with
  | nil => simp [lookupD]
  | cons p t ih =>
    simp only [List.map_cons, List.any_cons]
    by_cases hpk : p.1 = k
    · by_cases hk' : k' = k
      · simp_all [lookupD_cons, beq_iff_eq]
      · simp_all [lookupD_cons, beq_iff_eq]
        rw [if_neg (fun h => hk' h.symm), if_neg (fun h => hk' h.symm)]
    · by_cases hk' : k' = k
      · simp_all [lookupD_cons, beq_iff_eq]
        have hb : (p.1 == k) = false := by simp [hpk]
        rw [hb, Bool.false_or]
      · simp_all [lookupD_cons, beq_iff_eq]

theorem lookupD_dictInsert (d : Results) (k : String) (v : EntityRecord)
    (k' : String) :
    lookupD (dictInsert d k v) k' = if k' = k then some v else lookupD d k' := by
  unfold dictInsert
  by_cases hany : d.any (fun p => p.1 == k) = true
  · rw [if_pos hany, lookupD_map_replace, if_pos hany]
  · have hany' : d.any (fun p => p.1 == k) = false := by
      cases h2 : d.any (fun p => p.1 == k) with
      | true => exact absurd h2 hany
      | false => rfl
    rw [if_neg (by simp [hany']), lookupD_append]
    by_cases hk' : k' = k
    · subst hk'
      rw [lookupD_eq_none d k' hany']
      simp [lookupD]
    · cases h : lookupD d k' with
      | some w => simp [h, hk']
      | none =>
        have hkk' : (k == k') = false := by
          simp only [beq_eq_false_iff_ne, ne_eq]
          exact fun h2 => hk' h2.symm
        simp [h, hk', lookupD, hkk']

/-! ### Extraction lemmas -/

theorem lookupD_entities_foldl (es : List (String × String)) (acc : Results)
    (row : List String) (s : String) :
    lookupD
      (es.foldl
        (fun acc e =>
          if pyIn e.1 (row.getD 0 "") then dictInsert acc e.2 (entity_record row)
          else acc)
        acc) s =
      if es.any (fun e => pyIn e.1 (row.getD 0 "") && e.2 == s) then
        some (entity_record row)
      else lookupD acc s := by
  induction es generalizing acc with
  | nil => simp
  | cons e t ih =>
    simp only [List.foldl_cons, List.any_cons]
    rw [ih]
    by_cases hta : (t.any fun e => pyIn e.1 (row.getD 0 "") && e.2 == s) = true
    · rw [if_pos hta,
        if_pos (show (pyIn e.1 (row.getD 0 "") && e.2 == s
          || t.any fun e => pyIn e.1 (row.getD 0 "") && e.2 == s) = true by
            rw [hta, Bool.or_true])]
    · have hta' := bool_eq_false hta
      rw [if_neg hta]
      simp only [hta', Bool.or_false]
      by_cases hm : pyIn e.1 (row.getD 0 "") = true
      · rw [if_pos hm]
        rw [lookupD_dictInsert]
        simp only [hm, Bool.true_and]
        by_cases hs : s = e.2
        · rw [if_pos hs, if_pos (show (e.2 == s) = true by simp [hs])]
        · rw [if_neg hs, if_neg (show ¬ (e.2 == s) = true by
            simp only [beq_iff_eq]
            exact fun h2 => hs h2.symm)]
      · have hm' := bool_eq_false hm
        rw [if_neg hm]
        simp only [hm', Bool.false_and, Bool.false_eq_true, if_false]

theorem lookupD_process_row (acc : Results) (row : List String) (s : String) :
    lookupD (process_row acc row) s =
      if rowMatches row s then some (entity_record row) else lookupD acc s := by
  unfold process_row rowMatches
  exact lookupD_entities_foldl ENTITIES acc row s

theorem extract_results_append (r1 r2 : List (List String)) :
    extract_results (r1 ++ r2) = r2.foldl process_row (extract_results r1) := by
  unfold extract_results
  rw [List.foldl_append]

theorem lookupD_foldl_no_match (rows : List (List String)) (acc : Results)
    (s : String) (h : ∀ r ∈ rows, rowMatches r s = false) :
    lookupD (rows.foldl process_row acc) s = lookupD acc s := by
  induction rows generalizing acc with
  | nil => rfl
  | cons r t ih =>
    simp only [List.foldl_cons]
    rw [ih _ (fun r2 hr => h r2 (List.mem_cons_of_mem _ hr)),
        lookupD_process_row, h r (List.mem_cons_self _ _)]
    simp

/-! ### Key uniqueness of the extracted dict -/

theorem keys_map_replace (d : Results) (k : String) (v : EntityRecord) :
    (d.map (fun p => if p.1 == k then (k, v) else p)).map Prod.fst =
      d.map Prod.fst := by
  induction d with
  | nil => rfl
  | cons p t ih =>
    simp only [List.map_cons]
    rw [ih]
    have hhead : (if (p.1 == k) then ((k, v) : String × EntityRecord) else p).1 = p.1 := by
      by_cases hp : p.1 = k
      · rw [if_pos (by simp [hp])]
        exact hp.symm
      · rw [if_neg (by simp [hp])]
    rw [hhead]

theorem nodup_keys_dictInsert (d : Results) (k : String) (v : EntityRecord)
    (h : (d.map Prod.fst).Nodup) :
    ((dictInsert d k v).map Prod.fst).Nodup := by
  unfold dictInsert
  by_cases hany : (d.any fun p => p.1 == k) = true
  · rw [if_pos hany, keys_map_replace]
    exact h
  · rw [if_neg hany, List.map_append]
    have hk : k ∉ d.map Prod.fst := by
      intro hmem
      obtain ⟨p, hp, hpk⟩ := List.mem_map.mp hmem
      have h2 : (d.any fun p => p.1 == k) = true :=
        List.any_eq_true.mpr ⟨p, hp, by simp [hpk]⟩
      exact hany h2
    refine List.Nodup.append h (List.nodup_singleton k) ?_
    intro a ha hb
    simp only [List.map_cons, List.map_nil, List.mem_singleton] at hb
    subst hb
    exact hk ha

theorem nodup_keys_entities_foldl (es : List (String × String)) (acc : Results)
    (row : List String) (h : (acc.map Prod.fst).Nodup) :
    ((es.foldl
        (fun acc e =>
          if pyIn e.1 (row.getD 0 "") then dictInsert acc e.2 (entity_record row)
          else acc)
        acc).map Prod.fst).Nodup := by
  induction es generalizing acc with
  | nil => exact h
  | cons e t ih =>
    simp only [List.foldl_cons]
    apply ih
    by_cases hm : pyIn e.1 (row.getD 0 "") = true
    · rw [if_pos hm]
      exact nodup_keys_dictInsert _ _ _ h
    · rw [if_neg hm]
      exact h

theorem nodup_keys_process_row (acc : Results) (row : List String)
    (h : (acc.map Prod.fst).Nodup) :
    ((process_row acc row).map Prod.fst).Nodup := by
  unfold process_row
  exact nodup_keys_entities_foldl ENTITIES acc row h

theorem nodup_keys_foldl_rows (rows : List (List String)) (acc : Results)
    (h : (acc.map Prod.fst).Nodup) :
    ((rows.foldl process_row acc).map Prod.fst).Nodup := by
  induction rows generalizing acc with
  | nil => exact h
  | cons r t ih =>
    simp only [List.foldl_cons]
    exact ih _ (nodup_keys_process_row _ _ h)

theorem nodup_keys_extract (rows : List (List String)) :
    ((extract_results rows).map Prod.fst).Nodup := by
  unfold extract_results
  exact nodup_keys_foldl_rows rows [] (by simp)

theorem countP_eq_one_of_lookup (d : Results) (s : String) (v : EntityRecord)
    (hnd : (d.map Prod.fst).Nodup) (h : lookupD d s = some v) :
    d.countP (fun p => p.1 == s) = 1 := by
  induction d with
  | nil => simp [lookupD] at h
  | cons p t ih =>
    rw [lookupD_cons] at h
    simp only [List.map_cons, List.nodup_cons] at hnd
    cases hb : (p.1 == s) with
    | true =>
      have hps : p.1 = s := by simpa using hb
      rw [List.countP_cons_of_pos _ _ (by exact hb)]
      have hz : t.countP (fun q => q.1 == s) = 0 := by
        rw [List.countP_eq_zero]
        intro q hq hqs
        have hqs' : q.1 = s := by simpa using hqs
        exact hnd.1 (List.mem_map.mpr ⟨q, hq, hqs'.trans hps.symm⟩)
      omega
    | false =>
      rw [hb] at h
      simp only [Bool.false_eq_true, if_false] at h
      rw [List.countP_cons_of_neg _ _ (by simp [hb])]
      exact ih hnd.2 h

/-! ### Parser fold lemmas -/

theorem feed_cell (c : String) (st : PState) :
    List.foldl parse_step st (cell_events c) =
      { in_td := false, current_cell := c,
        current_row := st.current_row ++ [py_strip c], rows := st.rows } := by
  simp [cell_events, parse_step, empty_append_str]

theorem feed_cells (cells : List String) : ∀ (st : PState), st.in_td = false →
    ∃ cc, List.foldl parse_step st (cells.flatMap cell_events) =
      { in_td := false, current_cell := cc,
        current_row := st.current_row ++ cells.map py_strip, rows := st.rows } := by
  induction cells with
  | nil =>
    intro st h
    refine ⟨st.current_cell, ?_⟩
    cases st
    simp_all
  | cons c rest ih =>
    intro st _
    obtain ⟨cc, hcc⟩ :=
      ih ⟨false, c, st.current_row ++ [py_strip c], st.rows⟩ rfl
    refine ⟨cc, ?_⟩
    rw [List.flatMap_cons, List.foldl_append, feed_cell c st, hcc]
    simp

theorem parser_feed_tr (cells : List String) :
    (parser_feed (tr_events cells)).rows =
      if 5 ≤ cells.length then [(cells.map py_strip).take 5] else [] := by
  unfold parser_feed tr_events
  rw [List.foldl_cons]
  have h1 : parse_step initPState (HtmlEvent.startTag "tr") = initPState := rfl
  rw [h1, List.foldl_append]
  obtain ⟨cc, hcc⟩ := feed_cells cells initPState rfl
  rw [hcc]
  simp only [List.foldl_cons, List.foldl_nil]
  unfold parse_step
  simp [List.length_map, initPState]
  split <;> rfl

/-! ### Scan loop invariant -/

theorem scanLoop_inv (fetch : Nat → Nat → Option Results) (current : Nat × Nat) :
    ∀ (fuel : Nat) (s : ScanState), periodLeB s.last s.check = true →
      periodLeB s.last (scanLoop fetch current fuel s).last = true
      ∧ (((scanLoop fetch current fuel s).last = s.last
            ∧ (scanLoop fetch current fuel s).acc = s.acc)
          ∨ ∃ d, fetch (scanLoop fetch current fuel s).last.1
                   (scanLoop fetch current fuel s).last.2 = some d
              ∧ d.isEmpty = false
              ∧ ((scanLoop fetch current fuel s).last, d)
                  ∈ (scanLoop fetch current fuel s).acc)
      ∧ (∀ pd ∈ (scanLoop fetch current fuel s).acc,
          pd ∈ s.acc ∨ (fetch pd.1.1 pd.1.2 = some pd.2 ∧ pd.2.isEmpty = false)) := by
  intro fuel
  induction fuel with
  | zero =>
    intro s _
    exact ⟨periodLeB_refl _, Or.inl ⟨rfl, rfl⟩, fun pd hpd => Or.inl hpd⟩
  | succ n ih =>
    intro s h
    by_cases hc : periodLeB s.check current = true
    · cases hf : fetch s.check.1 s.check.2 with
      | none =>
        have hres : scanLoop fetch current (n + 1) s =
            { s with fetched := s.fetched ++ [s.check] } := by
          simp only [scanLoop, hc, if_true, hf]
        rw [hres]
        exact ⟨periodLeB_refl _, Or.inl ⟨rfl, rfl⟩, fun pd hpd => Or.inl hpd⟩
      | some d =>
        by_cases hde : d.isEmpty = true
        · have hres : scanLoop fetch current (n + 1) s =
              { s with fetched := s.fetched ++ [s.check] } := by
            simp only [scanLoop, hc, if_true, hf, hde]
          rw [hres]
          exact ⟨periodLeB_refl _, Or.inl ⟨rfl, rfl⟩, fun pd hpd => Or.inl hpd⟩
        · have hde' := bool_eq_false hde
          have hrec : scanLoop fetch current (n + 1) s =
              scanLoop fetch current n
                { check := next_month s.check.1 s.check.2, last := s.check,
                  acc := s.acc ++ [(s.check, d)], fetched := s.fetched ++ [s.check] } := by
            simp only [scanLoop, hc, if_true, hf, hde', Bool.false_eq_true, if_false]
          obtain ⟨ih1, ih2, ih3⟩ := ih
            { check := next_month s.check.1 s.check.2, last := s.check,
              acc := s.acc ++ [(s.check, d)], fetched := s.fetched ++ [s.check] }
            (periodLeB_le_next s.check)
          rw [hrec]
          refine ⟨periodLeB_trans h ih1, ?_, ?_⟩
          · rcases ih2 with ⟨hlast, hacc⟩ | ⟨d2, hf2, hd2, hmem2⟩
            · refine Or.inr ⟨d, ?_, hde', ?_⟩
              · rw [hlast]
                exact hf
              · rw [hlast, hacc]
                exact List.mem_append_right _ (List.mem_singleton.mpr rfl)
            · exact Or.inr ⟨d2, hf2, hd2, hmem2⟩
          · intro pd hpd
            rcases ih3 pd hpd with hin | hconf
            · rcases List.mem_append.mp hin with hin1 | hin2
              · exact Or.inl hin1
              · have heq : pd = (s.check, d) := List.mem_singleton.mp hin2
                subst heq
                exact Or.inr ⟨hf, hde'⟩
            · exact Or.inr hconf
    · have hc' := bool_eq_false hc
      have hres : scanLoop fetch current (n + 1) s = s := by
        simp only [scanLoop, hc', Bool.false_eq_true, if_false]
      rw [hres]
      exact ⟨periodLeB_refl _, Or.inl ⟨rfl, rfl⟩, fun pd hpd => Or.inl hpd⟩

/-! ### Branch characterizations of runMain -/

theorem runMain_of_empty (fetch : Nat → Nat → Option Results) (current : Nat × Nat)
    (stored : Option (Nat × Nat)) (env : Env) (ok : Bool)
    (h : (scanFinal fetch current stored).acc.isEmpty = true) :
    runMain fetch current stored env ok =
      { outcome := [], finalCursor := (scanFinal fetch current stored).last,
        saved := none, emailAttempted := false, emailOk := false,
        emailPrinted := [], exitCode := 0,
        fetched := (scanFinal fetch current stored).fetched,
        trace := (scanFinal fetch current stored).fetched.map Ev.fetchEv } := by
  unfold runMain
  simp only [h, if_true]

theorem runMain_of_found (fetch : Nat → Nat → Option Results) (current : Nat × Nat)
    (stored : Option (Nat × Nat)) (env : Env) (ok : Bool)
    (h : (scanFinal fetch current stored).acc.isEmpty = false) :
    runMain fetch current stored env ok =
      { outcome := (scanFinal fetch current stored).acc,
        finalCursor := (scanFinal fetch current stored).last,
        saved := some (scanFinal fetch current stored).last,
        emailAttempted := true,
        emailOk := (send_email env ok
          (subject_line (scanFinal fetch current stored).acc)
          (build_email_html (scanFinal fetch current stored).acc)).ok,
        emailPrinted := (send_email env ok
          (subject_line (scanFinal fetch current stored).acc)
          (build_email_html (scanFinal fetch current stored).acc)).printed,
        exitCode := 1,
        fetched := (scanFinal fetch current stored).fetched,
        trace := (scanFinal fetch current stored).fetched.map Ev.fetchEv
          ++ [Ev.emailEv, Ev.saveEv (scanFinal fetch current stored).last] } := by
  unfold runMain
  simp only [h, Bool.false_eq_true, if_false]

theorem scanFinal_inv (fetch : Nat → Nat → Option Results) (current : Nat × Nat)
    (stored : Option (Nat × Nat)) :
    periodLeB (load_state stored) (scanFinal fetch current stored).last = true
    ∧ (((scanFinal fetch current stored).last = load_state stored
          ∧ (scanFinal fetch current stored).acc = [])
        ∨ ∃ d, fetch (scanFinal fetch current stored).last.1
                 (scanFinal fetch current stored).last.2 = some d
            ∧ d.isEmpty = false
            ∧ ((scanFinal fetch current stored).last, d)
                ∈ (scanFinal fetch current stored).acc)
    ∧ (∀ pd ∈ (scanFinal fetch current stored).acc,
        fetch pd.1.1 pd.1.2 = some pd.2 ∧ pd.2.isEmpty = false) := by
  obtain ⟨i1, i2, i3⟩ := scanLoop_inv fetch current
    (fuelFor current (next_month (load_state stored).1 (load_state stored).2))
    { check := next_month (load_state stored).1 (load_state stored).2,
      last := load_state stored, acc := [], fetched := [] }
    (periodLeB_le_next (load_state stored))
  refine ⟨i1, ?_, ?_⟩
  · exact i2
  · intro pd hpd
    rcases i3 pd hpd with hin | hconf
    · exact absurd hin (List.not_mem_nil pd)
    · exact hconf

theorem scanLoop_first_none (fetch : Nat → Nat → Option Results)
    (current : Nat × Nat) (fuel : Nat) (s : ScanState)
    (hacc : s.acc = []) (hf : fetch s.check.1 s.check.2 = none) :
    (scanLoop fetch current fuel s).acc = [] := by
  cases fuel with
  | zero => exact hacc
  | succ n =>
    by_cases hc : periodLeB s.check current = true
    · have hres : scanLoop fetch current (n + 1) s =
          { s with fetched := s.fetched ++ [s.check] } := by
        simp only [scanLoop, hc, if_true, hf]
      rw [hres]
      exact hacc
    · have hc' := bool_eq_false hc
      have hres : scanLoop fetch current (n + 1) s = s := by
        simp only [scanLoop, hc', Bool.false_eq_true, if_false]
      rw [hres]
      exact hacc

/-! ### Claim theorems -/

/-- C2: for every loaded cursor value and every fetch function, the
final cursor of a run is never lexicographically below the loaded
value; whenever the run persists a cursor value it is not below the
loaded value and is a period for which the fetch of that run returned
(nonempty) data; and every accumulated period of the outcome was
positively confirmed by the fetch. -/
theorem C2_cursor_never_backward (fetch : Nat → Nat → Option Results)
    (current : Nat × Nat) (stored : Option (Nat × Nat)) (env : Env) (ok : Bool) :
    periodLeB (load_state stored) (runMain fetch current stored env ok).finalCursor = true
    ∧ (∀ c, (runMain fetch current stored env ok).saved = some c →
        periodLeB (load_state stored) c = true
        ∧ ∃ d, fetch c.1 c.2 = some d ∧ d.isEmpty = false)
    ∧ (∀ pd ∈ (runMain fetch current stored env ok).outcome,
        fetch pd.1.1 pd.1.2 = some pd.2 ∧ pd.2.isEmpty = false) := by
  obtain ⟨i1, i2, i3⟩ := scanFinal_inv fetch current stored
  by_cases hacc : (scanFinal fetch current stored).acc.isEmpty = true
  · rw [runMain_of_empty fetch current stored env ok hacc]
    refine ⟨i1, ?_, ?_⟩
    · intro c hc
      exact Option.noConfusion hc
    · intro pd hpd
      exact absurd hpd (List.not_mem_nil pd)
  · have hacc' := bool_eq_false hacc
    rw [runMain_of_found fetch current stored env ok hacc']
    refine ⟨i1, ?_, i3⟩
    intro c hc
    have hc' : (scanFinal fetch current stored).last = c := Option.some.inj hc
    subst hc'
    rcases i2 with ⟨_, hacc0⟩ | ⟨d, hfd, hd, _⟩
    · rw [hacc0] at hacc'
      exact absurd hacc' (by simp)
    · exact ⟨i1, d, hfd, hd⟩

/-- C3: a run whose scan accumulates no new periods persists nothing,
attempts no notification and exits 0; a loaded cursor equal to the
current calendar period scans nothing; and a second run started from
the first run's final cursor, when the fetch has no data for its first
candidate, again persists nothing, notifies nothing and exits 0. -/
theorem C3_empty_scan_frame (fetch : Nat → Nat → Option Results)
    (current : Nat × Nat) (stored : Option (Nat × Nat)) (env : Env) (ok : Bool) :
    ((runMain fetch current stored env ok).outcome = [] →
      (runMain fetch current stored env ok).saved = none
      ∧ (runMain fetch current stored env ok).emailAttempted = false
      ∧ (runMain fetch current stored env ok).emailPrinted = []
      ∧ (runMain fetch current stored env ok).exitCode = 0)
    ∧ (load_state stored = current →
        (runMain fetch current stored env ok).outcome = [])
    ∧ (∀ (fetch2 : Nat → Nat → Option Results) (env2 : Env) (ok2 : Bool),
        fetch2 (next_month (runMain fetch current stored env ok).finalCursor.1
                  (runMain fetch current stored env ok).finalCursor.2).1
               (next_month (runMain fetch current stored env ok).finalCursor.1
                  (runMain fetch current stored env ok).finalCursor.2).2 = none →
        (runMain fetch2 current
            (some (runMain fetch current stored env ok).finalCursor) env2 ok2).outcome = []
        ∧ (runMain fetch2 current
            (some (runMain fetch current stored env ok).finalCursor) env2 ok2).saved = none
        ∧ (runMain fetch2 current
            (some (runMain fetch current stored env ok).finalCursor) env2 ok2).emailAttempted = false
        ∧ (runMain fetch2 current
            (some (runMain fetch current stored env ok).finalCursor) env2 ok2).exitCode = 0) := by
  refine ⟨?_, ?_, ?_⟩
  · intro hout
    by_cases hacc : (scanFinal fetch current stored).acc.isEmpty = true
    · rw [runMain_of_empty fetch current stored env ok hacc]
      exact ⟨rfl, rfl, rfl, rfl⟩
    · have hacc' := bool_eq_false hacc
      rw [runMain_of_found fetch current stored env ok hacc'] at hout
      have hout' : (scanFinal fetch current stored).acc = [] := hout
      rw [hout'] at hacc'
      exact absurd hacc' (by simp)
  · intro hcur
    have hfuel : fuelFor current
        (next_month (load_state stored).1 (load_state stored).2) = 0 := by
      obtain ⟨cy, cm⟩ := current
      rw [hcur]
      unfold fuelFor
      rw [monthIdx_next]
      simp [monthIdx]
    have hempty : (scanFinal fetch current stored).acc.isEmpty = true := by
      unfold scanFinal
      simp only [hfuel]
      rfl
    rw [runMain_of_empty fetch current stored env ok hempty]
  · intro fetch2 env2 ok2 hf2
    have h0 : (scanFinal fetch2 current
        (some (runMain fetch current stored env ok).finalCursor)).acc = [] := by
      unfold scanFinal load_state
      exact scanLoop_first_none fetch2 current _ _ rfl hf2
    have hempty : (scanFinal fetch2 current
        (some (runMain fetch current stored env ok).finalCursor)).acc.isEmpty = true := by
      rw [h0]
      rfl
    rw [runMain_of_empty fetch2 current _ env2 ok2 hempty]
    exact ⟨rfl, rfl, rfl, rfl⟩

theorem periodLeB_mk (a b c d : Nat) :
    periodLeB (a, b) (c, d) = true ↔ (a < c ∨ (a = c ∧ b ≤ d)) := by
  simp [periodLeB]

/-- C1: starting from cursor (Y, M), with a fetch returning data for
(Y, M+1) and (Y, M+2) and no data for (Y, M+3), all of which lie within
the current calendar period, one run accumulates exactly the two
periods [(Y, M+1), (Y, M+2)] in ascending order, performs fetches for
exactly (Y, M+1), (Y, M+2), (Y, M+3) and hence none for any later
period, and persists the cursor (Y, M+2). -/
theorem C1_two_period_scan (fetch : Nat → Nat → Option Results)
    (Y M : Nat) (current : Nat × Nat) (d1 d2 : Results) (env : Env) (ok : Bool)
    (h12 : M + 3 ≤ 12)
    (hcur : periodLeB (Y, M + 3) current = true)
    (hf1 : fetch Y (M + 1) = some d1) (hd1 : d1.isEmpty = false)
    (hf2 : fetch Y (M + 2) = some d2) (hd2 : d2.isEmpty = false)
    (hf3 : fetch Y (M + 3) = none) :
    (runMain fetch current (some (Y, M)) env ok).outcome
        = [((Y, M + 1), d1), ((Y, M + 2), d2)]
    ∧ (runMain fetch current (some (Y, M)) env ok).fetched
        = [(Y, M + 1), (Y, M + 2), (Y, M + 3)]
    ∧ (∀ p ∈ (runMain fetch current (some (Y, M)) env ok).fetched,
        periodLeB p (Y, M + 3) = true)
    ∧ (runMain fetch current (some (Y, M)) env ok).saved = some (Y, M + 2)
    ∧ (runMain fetch current (some (Y, M)) env ok).exitCode = 1 := by
  obtain ⟨cy, cm⟩ := current
  have hn0 : next_month Y M = (Y, M + 1) := by
    unfold next_month
    rw [if_neg (by simp only [beq_iff_eq]; omega)]
  have hn1 : next_month Y (M + 1) = (Y, M + 2) := by
    unfold next_month
    rw [if_neg (by simp only [beq_iff_eq]; omega)]
  have hn2 : next_month Y (M + 2) = (Y, M + 3) := by
    unfold next_month
    rw [if_neg (by simp only [beq_iff_eq]; omega)]
  have hc1 : periodLeB (Y, M + 1) (cy, cm) = true :=
    periodLeB_trans (by rw [periodLeB_mk]; omega) hcur
  have hc2 : periodLeB (Y, M + 2) (cy, cm) = true :=
    periodLeB_trans (by rw [periodLeB_mk]; omega) hcur
  have hc3 : periodLeB (Y, M + 3) (cy, cm) = true := hcur
  have hk : fuelFor (cy, cm) (Y, M + 1) =
      (monthIdx (cy, cm) - monthIdx (Y, M) - 3) + 1 + 1 + 1 := by
    rw [periodLeB_mk] at hcur
    unfold fuelFor monthIdx
    omega
  have hloop : scanLoop fetch (cy, cm)
      ((monthIdx (cy, cm) - monthIdx (Y, M) - 3) + 1 + 1 + 1)
      { check := (Y, M + 1), last := (Y, M), acc := [], fetched := [] } =
      { check := (Y, M + 3), last := (Y, M + 2),
        acc := [((Y, M + 1), d1), ((Y, M + 2), d2)],
        fetched := [(Y, M + 1), (Y, M + 2), (Y, M + 3)] } := by
    simp [scanLoop, hc1, hc2, hc3, hf1, hf2, hf3, hd1, hd2, hn1, hn2]
  have hsf : scanFinal fetch (cy, cm) (some (Y, M)) =
      { check := (Y, M + 3), last := (Y, M + 2),
        acc := [((Y, M + 1), d1), ((Y, M + 2), d2)],
        fetched := [(Y, M + 1), (Y, M + 2), (Y, M + 3)] } := by
    unfold scanFinal load_state
    simp only [Option.getD_some]
    rw [hn0]
    rw [hk, hloop]
  have hacc : (scanFinal fetch (cy, cm) (some (Y, M))).acc.isEmpty = false := by
    rw [hsf]
    rfl
  rw [runMain_of_found fetch (cy, cm) (some (Y, M)) env ok hacc, hsf]
  refine ⟨rfl, rfl, ?_, rfl, rfl⟩
  intro p hp
  have hp' : p = (Y, M + 1) ∨ p = (Y, M + 2) ∨ p = (Y, M + 3) := by
    simpa using hp
  rcases hp' with hp1 | hp2 | hp3 <;> subst_vars <;> rw [periodLeB_mk] <;> omega

theorem fetch_month_some (page : Page) :
    fetch_month (some page) =
      if pyIn MARKER page.text then
        (if (extract_results (parser_feed page.events).rows).isEmpty then none
         else some (extract_results (parser_feed page.events).rows))
      else none := rfl

/-- C4: fetch_month is total over transport outcomes: a transport
failure yields no data, a response body without the marker substring
yields no data, a marker-bearing body whose extraction is empty yields
no data, and data is returned exactly when the marker is present and
the extraction produced at least one tracked entity, in which case the
result is that extraction. -/
theorem C4_fetch_month_no_data (page : Page) :
    fetch_month none = none
    ∧ (pyIn MARKER page.text = false → fetch_month (some page) = none)
    ∧ (extract_results (parser_feed page.events).rows = [] →
        fetch_month (some page) = none)
    ∧ (∀ r, fetch_month (some page) = some r →
        pyIn MARKER page.text = true ∧ r ≠ []
        ∧ r = extract_results (parser_feed page.events).rows) := by
  refine ⟨rfl, ?_, ?_, ?_⟩
  · intro h
    rw [fetch_month_some, if_neg (by simp [h])]
  · intro h
    rw [fetch_month_some]
    by_cases hm : pyIn MARKER page.text = true
    · rw [if_pos hm, if_pos (by rw [h]; rfl)]
    · rw [if_neg hm]
  · intro r hr
    rw [fetch_month_some] at hr
    by_cases hm : pyIn MARKER page.text = true
    · rw [if_pos hm] at hr
      by_cases he : (extract_results (parser_feed page.events).rows).isEmpty = true
      · rw [if_pos he] at hr
        exact Option.noConfusion hr
      · rw [if_neg he] at hr
        have hr' := Option.some.inj hr
        subst hr'
        refine ⟨hm, ?_, rfl⟩
        intro hnil
        apply he
        rw [hnil]
        rfl
    · rw [if_neg hm] at hr
      exact Option.noConfusion hr

/-- C5: the integer cell parser returns the parsed comma-stripped value
on a well-formed cell and 0 on any parse failure; the percentage cell
parser returns the parsed percent-stripped value on a well-formed cell
and 0.0 on any parse failure; and a row whose name cell matches an
entity is still included in the result with whatever (possibly
defaulted) field values the parsers produced. -/
theorem C5_parsers_default_not_raise :
    (∀ (s : String) (n : Int),
        int_from_str (stripList (s.data.filter (fun c => c != ','))) = some n →
        parse_number s = n)
    ∧ (∀ s : String,
        int_from_str (stripList (s.data.filter (fun c => c != ','))) = none →
        parse_number s = 0)
    ∧ (∀ (s : String) (q : Rat),
        float_from_str (stripList (s.data.filter (fun c => c != '%'))) = some q →
        parse_pct s = q)
    ∧ (∀ s : String,
        float_from_str (stripList (s.data.filter (fun c => c != '%'))) = none →
        parse_pct s = 0)
    ∧ (∀ name c1 c2 c3 c4 : String, pyIn "Stori México" name = true →
        lookupD (extract_results [[name, c1, c2, c3, c4]]) "Stori" =
          some { cartera_total := parse_number c1,
                 cartera_vigente := parse_number c2,
                 cartera_vencida := parse_number c3,
                 imora := parse_pct c4 }) := by
  refine ⟨?_, ?_, ?_, ?_, ?_⟩
  · intro s n h
    unfold parse_number
    rw [h]
  · intro s h
    unfold parse_number
    rw [h]
  · intro s q h
    unfold parse_pct
    rw [h]
  · intro s h
    unfold parse_pct
    rw [h]
  · intro name c1 c2 c3 c4 h
    have hrm : rowMatches [name, c1, c2, c3, c4] "Stori" = true := by
      unfold rowMatches ENTITIES
      simp [h]
    have hone : extract_results [[name, c1, c2, c3, c4]] =
        process_row [] [name, c1, c2, c3, c4] := rfl
    rw [hone, lookupD_process_row, if_pos hrm]
    rfl

/-- C7: the parser keeps a table row exactly when it has at least five
cells, truncating it to its first five (stripped) cells, and ignores
shorter rows without error; a five-cell row whose name cell contains
the Stori pattern and no other configured pattern yields exactly one
record keyed Stori with the four numeric fields parsed from cells two
to five. -/
theorem C7_five_cell_rows :
    (∀ cells : List String, 5 ≤ cells.length →
        (parser_feed (tr_events cells)).rows = [(cells.map py_strip).take 5])
    ∧ (∀ cells : List String, cells.length < 5 →
        (parser_feed (tr_events cells)).rows = [])
    ∧ (∀ name c1 c2 c3 c4 : String,
        pyIn "Stori México" name = true →
        pyIn "Klar Technologies" name = false →
        pyIn "Libertad Servicios Financieros" name = false →
        pyIn "Financiera Sustentable" name = false →
        pyIn "NU México Financiera" name = false →
        extract_results [[name, c1, c2, c3, c4]] =
          [("Stori",
            { cartera_total := parse_number c1,
              cartera_vigente := parse_number c2,
              cartera_vencida := parse_number c3,
              imora := parse_pct c4 })]) := by
  refine ⟨?_, ?_, ?_⟩
  · intro cells h
    rw [parser_feed_tr, if_pos h]
  · intro cells h
    rw [parser_feed_tr, if_neg (by omega)]
  · intro name c1 c2 c3 c4 h1 h2 h3 h4 h5
    have hone : extract_results [[name, c1, c2, c3, c4]] =
        process_row [] [name, c1, c2, c3, c4] := rfl
    rw [hone]
    unfold process_row ENTITIES
    simp [h1, h2, h3, h4, h5, dictInsert, entity_record]

theorem build_email_html_starts_newline (X : List ((Nat × Nat) × Results)) :
    (build_email_html X).data.head? = some '\n' := by
  unfold build_email_html
  rw [String.data_append, String.data_append, List.head?_append, List.head?_append]
  rfl

theorem build_email_html_ne (X : List ((Nat × Nat) × Results)) (s : String)
    (h : s.data.head? ≠ some '\n') : build_email_html X ≠ s := by
  intro heq
  apply h
  rw [← heq]
  exact build_email_html_starts_newline X

/-- C8 (code-bug exhibit): on a run that finds new data with the
account credential absent from the environment, the send step is
skipped and the run does not fail — the cursor is persisted and the
exit status is 1 — but standard output receives only the two fixed
diagnostic lines; the formatted payload is not among the printed lines
even though the second line announces printing the data. -/
theorem C8_payload_not_surfaced :
    (runMain c8_fetch (2026, 3) (some (2025, 12)) c8_env true).saved = some (2026, 1)
    ∧ (runMain c8_fetch (2026, 3) (some (2025, 12)) c8_env true).exitCode = 1
    ∧ (runMain c8_fetch (2026, 3) (some (2025, 12)) c8_env true).emailOk = false
    ∧ (runMain c8_fetch (2026, 3) (some (2025, 12)) c8_env true).emailPrinted =
        ["ERROR: GMAIL_USER or GMAIL_APP_PASSWORD not set.",
         "Skipping email — printing data to console instead."]
    ∧ build_email_html (runMain c8_fetch (2026, 3) (some (2025, 12)) c8_env true).outcome
        ∉ (runMain c8_fetch (2026, 3) (some (2025, 12)) c8_env true).emailPrinted := by
  have hacc : (scanFinal c8_fetch (2026, 3) (some (2025, 12))).acc.isEmpty = false := by
    decide
  rw [runMain_of_found c8_fetch (2026, 3) (some (2025, 12)) c8_env true hacc]
  refine ⟨by decide, rfl, rfl, rfl, ?_⟩
  have hp : (send_email c8_env true
      (subject_line (scanFinal c8_fetch (2026, 3) (some (2025, 12))).acc)
      (build_email_html (scanFinal c8_fetch (2026, 3) (some (2025, 12))).acc)).printed =
      ["ERROR: GMAIL_USER or GMAIL_APP_PASSWORD not set.",
       "Skipping email — printing data to console instead."] := rfl
  show build_email_html (scanFinal c8_fetch (2026, 3) (some (2025, 12))).acc
      ∉ (send_email c8_env true
        (subject_line (scanFinal c8_fetch (2026, 3) (some (2025, 12))).acc)
        (build_email_html (scanFinal c8_fetch (2026, 3) (some (2025, 12))).acc)).printed
  rw [hp]
  intro hmem
  rcases List.mem_cons.mp hmem with h1 | h1
  · exact build_email_html_ne _ _ (by decide) h1
  · rcases List.mem_cons.mp h1 with h2 | h2
    · exact build_email_html_ne _ _ (by decide) h2
    · exact List.not_mem_nil _ h2

/-- C6 counterexample: a row whose name cell contains two configured
patterns produces one record per matching pattern — two records, not
exactly one record keyed by the last matching pattern. -/
theorem C6_counterexample :
    pyIn "Klar Technologies" "Klar Technologies y Stori México" = true
    ∧ pyIn "Stori México" "Klar Technologies y Stori México" = true
    ∧ extract_results [["Klar Technologies y Stori México", "1", "2", "3", "4"]] =
        [("Klar", entity_record ["Klar Technologies y Stori México", "1", "2", "3", "4"]),
         ("Stori", entity_record ["Klar Technologies y Stori México", "1", "2", "3", "4"])]
    ∧ ¬ (extract_results [["Klar Technologies y Stori México", "1", "2", "3", "4"]]).length = 1 := by
  refine ⟨by decide, by decide, ?_, by decide⟩
  rfl

/-- C6 amended: a row inserts one record for every configured pattern
its name cell contains, each under the short identifier of that pattern, and
all with the same field values parsed from the row; per identifier the
lookup yields the row record exactly when some pattern with that
identifier matches (the last write wins only among patterns sharing an
identifier, which the shipped configuration never has). -/
theorem C6_amended_record_per_pattern (row : List String) (s : String) :
    lookupD (extract_results [row]) s =
      if rowMatches row s then some (entity_record row) else none := by
  have hone : extract_results [row] = process_row [] row := rfl
  rw [hone, lookupD_process_row]
  rfl

/-- C10: when two rows of one document match patterns with the same
short identifier and no later row matches it, the extraction holds
exactly one record under that identifier, holding the field values of
the later row. -/
theorem C10_later_row_wins (l1 l2 l3 : List (List String))
    (r1 r2 : List String) (s : String)
    (h1 : rowMatches r1 s = true) (h2 : rowMatches r2 s = true)
    (h3 : ∀ r ∈ l3, rowMatches r s = false) :
    lookupD (extract_results (l1 ++ [r1] ++ l2 ++ [r2] ++ l3)) s =
      some (entity_record r2)
    ∧ (extract_results (l1 ++ [r1] ++ l2 ++ [r2] ++ l3)).countP
        (fun p => p.1 == s) = 1 := by
  have hlook : lookupD (extract_results (l1 ++ [r1] ++ l2 ++ [r2] ++ l3)) s =
      some (entity_record r2) := by
    rw [extract_results_append, lookupD_foldl_no_match _ _ _ h3,
        extract_results_append]
    simp only [List.foldl_cons, List.foldl_nil]
    rw [lookupD_process_row, if_pos h2]
  exact ⟨hlook,
    countP_eq_one_of_lookup _ s (entity_record r2) (nodup_keys_extract _) hlook⟩

theorem filter_fetchEv_isSave (l : List (Nat × Nat)) :
    (l.map Ev.fetchEv).filter isSaveEv = [] := by
  induction l with
  | nil => rfl
  | cons p t ih => simp [isSaveEv, ih]

/-- C9 counterexample: the persistence trace of save_state opens the
state file itself for writing and contains no rename, so it is not a
write-new-then-rename atomic replace; an interruption right after the
truncating open leaves the state file empty. -/
theorem C9_counterexample :
    ¬ atomic_replace_spec STATE_FILE (save_state_ops 2026 3)
    ∧ FsOp.openTrunc STATE_FILE ∈ save_state_ops 2026 3
    ∧ state_file_after (state_json 2025 12) ((save_state_ops 2026 3).take 1) = "" := by
  refine ⟨?_, ?_, rfl⟩
  · rintro ⟨tmp, content, hne, heq⟩
    have hlen := congrArg List.length heq
    simp [save_state_ops] at hlen
  · simp [save_state_ops]

/-- C9 amended: the cursor write happens exactly once per run with a
nonempty outcome (and never otherwise), strictly after the notification
attempt, but it is a direct truncate-and-rewrite of the state file, not
an atomic temp-file-and-rename. -/
theorem C9_amended_single_write_after_email (fetch : Nat → Nat → Option Results)
    (current : Nat × Nat) (stored : Option (Nat × Nat)) (env : Env) (ok : Bool) :
    (((runMain fetch current stored env ok).trace.filter isSaveEv).length
      = if (runMain fetch current stored env ok).outcome.isEmpty then 0 else 1)
    ∧ ((runMain fetch current stored env ok).outcome ≠ [] →
        ∃ pre, (runMain fetch current stored env ok).trace
            = pre ++ [Ev.emailEv,
                Ev.saveEv (runMain fetch current stored env ok).finalCursor]
          ∧ ∀ e ∈ pre, ∃ p, e = Ev.fetchEv p)
    ∧ (∀ y m, save_state_ops y m =
        [FsOp.openTrunc STATE_FILE, FsOp.writeStr (state_json y m), FsOp.closeF]) := by
  by_cases hacc : (scanFinal fetch current stored).acc.isEmpty = true
  · rw [runMain_of_empty fetch current stored env ok hacc]
    refine ⟨?_, ?_, fun y m => rfl⟩
    · show ((((scanFinal fetch current stored).fetched.map Ev.fetchEv).filter
          isSaveEv).length) = if List.isEmpty [] then 0 else 1
      rw [filter_fetchEv_isSave]
      rfl
    · intro h
      exact absurd rfl h
  · have hacc' := bool_eq_false hacc
    rw [runMain_of_found fetch current stored env ok hacc']
    refine ⟨?_, ?_, fun y m => rfl⟩
    · show ((((scanFinal fetch current stored).fetched.map Ev.fetchEv)
          ++ [Ev.emailEv, Ev.saveEv (scanFinal fetch current stored).last]).filter
            isSaveEv).length
        = if (scanFinal fetch current stored).acc.isEmpty then 0 else 1
      rw [List.filter_append, filter_fetchEv_isSave]
      simp only [hacc', Bool.false_eq_true, if_false]
      simp [isSaveEv]
    · intro _
      refine ⟨(scanFinal fetch current stored).fetched.map Ev.fetchEv, rfl, ?_⟩
      intro e he
      obtain ⟨p, _, hpe⟩ := List.mem_map.mp he
      exact ⟨p, hpe.symm⟩

/-! ### Witnesses: the claim theorems applied at concrete inputs -/

/-- Witness for C1 at Y = 2026, M = 1, current period 2026-06. -/
theorem C1_two_period_scan_witness :
    (runMain c1_fetch (2026, 6) (some (2026, 1)) c8_env true).outcome
        = [((2026, 2), demo_res), ((2026, 3), demo_res)]
    ∧ (runMain c1_fetch (2026, 6) (some (2026, 1)) c8_env true).fetched
        = [(2026, 2), (2026, 3), (2026, 4)]
    ∧ (∀ p ∈ (runMain c1_fetch (2026, 6) (some (2026, 1)) c8_env true).fetched,
        periodLeB p (2026, 4) = true)
    ∧ (runMain c1_fetch (2026, 6) (some (2026, 1)) c8_env true).saved = some (2026, 3)
    ∧ (runMain c1_fetch (2026, 6) (some (2026, 1)) c8_env true).exitCode = 1 :=
  C1_two_period_scan c1_fetch 2026 1 (2026, 6) demo_res demo_res c8_env true
    (by decide) (by decide) (by decide) (by decide) (by decide) (by decide) (by decide)

/-- Witness for C2 on a run that advances the cursor to 2026-01. -/
theorem C2_cursor_never_backward_witness :
    periodLeB (load_state (some (2025, 12)))
        (runMain c8_fetch (2026, 3) (some (2025, 12)) c8_env true).finalCursor = true
    ∧ (periodLeB (load_state (some (2025, 12))) (2026, 1) = true
        ∧ ∃ d, c8_fetch 2026 1 = some d ∧ d.isEmpty = false) :=
  ⟨(C2_cursor_never_backward c8_fetch (2026, 3) (some (2025, 12)) c8_env true).1,
   (C2_cursor_never_backward c8_fetch (2026, 3) (some (2025, 12)) c8_env true).2.1
     (2026, 1) (by decide)⟩

/-- Witness for C3: a cursor already at the current period, and a
second run after it with no newer data. -/
theorem C3_empty_scan_frame_witness :
    ((runMain (fun _ _ => none) (2026, 3) (some (2026, 3)) c8_env true).saved = none
      ∧ (runMain (fun _ _ => none) (2026, 3) (some (2026, 3)) c8_env true).emailAttempted = false
      ∧ (runMain (fun _ _ => none) (2026, 3) (some (2026, 3)) c8_env true).emailPrinted = []
      ∧ (runMain (fun _ _ => none) (2026, 3) (some (2026, 3)) c8_env true).exitCode = 0)
    ∧ (runMain (fun _ _ => none) (2026, 3) (some (2026, 3)) c8_env true).outcome = []
    ∧ ((runMain (fun _ _ => none) (2026, 3)
          (some (runMain (fun _ _ => none) (2026, 3) (some (2026, 3)) c8_env true).finalCursor)
          c8_env true).outcome = []
        ∧ (runMain (fun _ _ => none) (2026, 3)
            (some (runMain (fun _ _ => none) (2026, 3) (some (2026, 3)) c8_env true).finalCursor)
            c8_env true).saved = none
        ∧ (runMain (fun _ _ => none) (2026, 3)
            (some (runMain (fun _ _ => none) (2026, 3) (some (2026, 3)) c8_env true).finalCursor)
            c8_env true).emailAttempted = false
        ∧ (runMain (fun _ _ => none) (2026, 3)
            (some (runMain (fun _ _ => none) (2026, 3) (some (2026, 3)) c8_env true).finalCursor)
            c8_env true).exitCode = 0) :=
  ⟨(C3_empty_scan_frame (fun _ _ => none) (2026, 3) (some (2026, 3)) c8_env true).1
      (by decide),
   (C3_empty_scan_frame (fun _ _ => none) (2026, 3) (some (2026, 3)) c8_env true).2.1 rfl,
   (C3_empty_scan_frame (fun _ _ => none) (2026, 3) (some (2026, 3)) c8_env true).2.2
      (fun _ _ => none) c8_env true rfl⟩

/-- Witness for C4: a transport failure, a page without the marker, and
a marker page with no table rows. -/
theorem C4_fetch_month_no_data_witness :
    fetch_month (none : Option Page) = none
    ∧ (pyIn MARKER demo_page.text = false ∧ fetch_month (some demo_page) = none)
    ∧ (extract_results (parser_feed demo_page_marker.events).rows = []
        ∧ fetch_month (some demo_page_marker) = none) :=
  ⟨(C4_fetch_month_no_data demo_page).1,
   ⟨by decide, (C4_fetch_month_no_data demo_page).2.1 (by decide)⟩,
   ⟨rfl, (C4_fetch_month_no_data demo_page_marker).2.2.1 rfl⟩⟩

/-- Witness for C5 on concrete well-formed and malformed cells. -/
theorem C5_parsers_default_not_raise_witness :
    parse_number "1,234" = 1234
    ∧ parse_number "garbage" = 0
    ∧ parse_pct "12.5%" = 25 / 2
    ∧ parse_pct "N/A" = 0
    ∧ lookupD (extract_results [["Stori México SAPI", "1,000", "900", "x", "oops"]])
        "Stori"
        = some { cartera_total := 1000, cartera_vigente := 900,
                 cartera_vencida := 0, imora := 0 } := by
  refine ⟨?_, ?_, ?_, ?_, ?_⟩
  · exact C5_parsers_default_not_raise.1 "1,234" 1234 (by decide)
  · exact C5_parsers_default_not_raise.2.1 "garbage" (by decide)
  · exact C5_parsers_default_not_raise.2.2.1 "12.5%" (25 / 2) (by decide!)
  · exact C5_parsers_default_not_raise.2.2.2.1 "N/A" (by decide)
  · exact (C5_parsers_default_not_raise.2.2.2.2 "Stori México SAPI" "1,000" "900" "x"
      "oops" (by decide)).trans (by decide)

/-- Witness for C7 on a five-cell Stori row and a three-cell row. -/
theorem C7_five_cell_rows_witness :
    (parser_feed (tr_events
        ["Stori México Something", " 1,000 ", "900", "100", "10.0%"])).rows
        = [["Stori México Something", "1,000", "900", "100", "10.0%"]]
    ∧ (parser_feed (tr_events ["a", "b", "c"])).rows = []
    ∧ extract_results [["Stori México Something", "1", "2", "3", "4.5"]]
        = [("Stori", { cartera_total := 1, cartera_vigente := 2,
                       cartera_vencida := 3, imora := 9 / 2 })] := by
  refine ⟨?_, ?_, ?_⟩
  · exact (C7_five_cell_rows.1
      ["Stori México Something", " 1,000 ", "900", "100", "10.0%"]
      (by decide)).trans (by decide)
  · exact C7_five_cell_rows.2.1 ["a", "b", "c"] (by decide)
  · exact (C7_five_cell_rows.2.2 "Stori México Something" "1" "2" "3" "4.5"
      (by decide) (by decide) (by decide) (by decide) (by decide)).trans (by decide!)

/-- Witness for C9 (amended) on a run that finds new data. -/
theorem C9_amended_single_write_after_email_witness :
    ∃ pre, (runMain c8_fetch (2026, 3) (some (2025, 12)) c8_env true).trace
        = pre ++ [Ev.emailEv,
            Ev.saveEv (runMain c8_fetch (2026, 3) (some (2025, 12)) c8_env true).finalCursor]
      ∧ ∀ e ∈ pre, ∃ p, e = Ev.fetchEv p :=
  (C9_amended_single_write_after_email c8_fetch (2026, 3) (some (2025, 12))
      c8_env true).2.1 (by decide)

/-- Witness for C10 on two concrete Stori rows. -/
theorem C10_later_row_wins_witness :
    lookupD (extract_results ([] ++ [rowA] ++ [] ++ [rowB] ++ [])) "Stori"
        = some (entity_record rowB)
    ∧ (extract_results ([] ++ [rowA] ++ [] ++ [rowB] ++ [])).countP
        (fun p => p.1 == "Stori") = 1 :=
  C10_later_row_wins [] [] [] rowA rowB "Stori" (by decide) (by decide)
    (fun r hr => absurd hr (List.not_mem_nil r))

end CondusefCheck
